import Mathlib

/-!
Verification of the indicator-engine, chart-assembly and fetch/dispatch logic
of the stock-market dashboard (`src/i.py`), shallowly embedded in Lean 4.

Prices are modelled as exact rationals (the source computes in floating
point; all the properties checked here are about the algebra of the
formulas, not about rounding).  A pandas `NaN` entry of a derived column is
modelled as `none : Option _`.
-/

/-- One row of the fetched price frame: the columns of the data frame built
in `get_stock_data` after `astype(float)` (`src/i.py` lines 88-94). -/
structure Row where
  Open : ℚ
  High : ℚ
  Low : ℚ
  Close : ℚ
  Volume : ℚ
deriving Repr, DecidableEq, Inhabited

/-- A row whose entries are all zero, used as the default of list lookups. -/
def dummyRow : Row := { Open := 0, High := 0, Low := 0, Close := 0, Volume := 0 }

/-- A row in which every price field is `c` (a convenient way to build test
series). -/
def mkRow (c : ℚ) : Row := { Open := c, High := c, Low := c, Close := c, Volume := c }

/-- The `Close` column of a frame (`df['Close']`). -/
def closes (df : List Row) : List ℚ := df.map Row.Close

/-- The trailing window of width `w` ending at position `i` of a series:
entries `i+1-w, ..., i`.  This is what a pandas `rolling(window=w)`
aggregation sees at position `i`. -/
def windowSlice (w : ℕ) (xs : List ℚ) (i : ℕ) : List ℚ :=
  (xs.take (i + 1)).drop (i + 1 - w)

/-- `rolling(window=w).mean()` at position `i`: `NaN` (i.e. `none`) until `w`
observations are available, afterwards the window sum divided by `w`
(`src/i.py` lines 150, 154, 155, 160). -/
def rollingMean (w : ℕ) (xs : List ℚ) (i : ℕ) : Option ℚ :=
  if i + 1 < w then none else some ((windowSlice w xs i).sum / w)

/-- The gain series: `delta = df['Close'].diff()` followed by
`delta.where(delta > 0, 0)` (`src/i.py` lines 153-154).  `diff` leaves `NaN`
at position 0; `where` replaces every entry at which the condition fails —
the `NaN` included, since `NaN > 0` is false — by `0`. -/
def gains (xs : List ℚ) : List ℚ :=
  (List.range xs.length).map fun i =>
    if i = 0 then 0
    else if 0 < xs.getD i 0 - xs.getD (i - 1) 0 then xs.getD i 0 - xs.getD (i - 1) 0 else 0

/-- The loss series: `(-delta.where(delta < 0, 0))` (`src/i.py` line 155),
with the index-0 `NaN` again replaced by `0` by `where`. -/
def losses (xs : List ℚ) : List ℚ :=
  (List.range xs.length).map fun i =>
    if i = 0 then 0
    else if xs.getD i 0 - xs.getD (i - 1) 0 < 0 then -(xs.getD i 0 - xs.getD (i - 1) 0) else 0

/-- One point of the RSI column (`src/i.py` lines 156-157).  The source
computes `rs = gain / loss` and `RSI = 100 - (100 / (1 + rs))` in IEEE
arithmetic: when the average loss is zero the quotient is `+inf` (giving
RSI = 100) if the average gain is nonzero, and `NaN` (an undefined RSI) if
the average gain is zero as well.  The embedding spells that division
behaviour out; `none` stands for `NaN`. -/
def rsiAt (xs : List ℚ) (i : ℕ) : Option ℚ :=
  match rollingMean 14 (gains xs) i, rollingMean 14 (losses xs) i with
  | some g, some l =>
    if l = 0 then (if g = 0 then none else some 100)
    else some (100 - 100 / (1 + g / l))
  | _, _ => none

/-- `rolling(window=w).std()` squared, at position `i`: pandas' rolling
standard deviation uses the default `ddof = 1`, dividing the sum of squared
deviations from the window mean by `w - 1` (`src/i.py` line 161). -/
def sampleVar (w : ℕ) (xs : List ℚ) (i : ℕ) : Option ℚ :=
  if i + 1 < w then none
  else
    some (((windowSlice w xs i).map
      fun x => (x - (windowSlice w xs i).sum / w) ^ 2).sum / ((w - 1 : ℕ) : ℚ))

/-- The rolling standard deviation `bb_std` (`src/i.py` line 161). -/
noncomputable def bbStdAt (xs : List ℚ) (i : ℕ) : Option ℝ :=
  (sampleVar 20 xs i).map fun (v : ℚ) => Real.sqrt (v : ℝ)

/-- `df['BB_Upper'] = df['BB_Middle'] + (bb_std * 2)` (`src/i.py` line 162). -/
noncomputable def bbUpperAt (xs : List ℚ) (i : ℕ) : Option ℝ :=
  match rollingMean 20 xs i, bbStdAt xs i with
  | some m, some s => some ((m : ℝ) + s * 2)
  | _, _ => none

/-- `df['BB_Lower'] = df['BB_Middle'] - (bb_std * 2)` (`src/i.py` line 163). -/
noncomputable def bbLowerAt (xs : List ℚ) (i : ℕ) : Option ℝ :=
  match rollingMean 20 xs i, bbStdAt xs i with
  | some m, some s => some ((m : ℝ) - s * 2)
  | _, _ => none

/-- A row of the enriched frame returned by `calculate_technical_indicators`:
the original columns plus the five derived columns. -/
structure RowOut where
  Open : ℚ
  High : ℚ
  Low : ℚ
  Close : ℚ
  Volume : ℚ
  SMA : Option ℚ
  RSI : Option ℚ
  BB_Middle : Option ℚ
  BB_Upper : Option ℝ
  BB_Lower : Option ℝ

/-- A default output row (all prices zero, all indicator entries absent). -/
def dummyOut : RowOut :=
  { Open := 0, High := 0, Low := 0, Close := 0, Volume := 0,
    SMA := none, RSI := none, BB_Middle := none, BB_Upper := none, BB_Lower := none }

/-- Row `i` of the enriched frame: the original row together with the value
of each derived column at `i` (`src/i.py` lines 145-165).  The SMA window is
the `window` parameter; the RSI period is the literal 14 and the Bollinger
window the literal 20, exactly as in the source. -/
noncomputable def indicatorRow (df : List Row) (window : ℕ) (i : ℕ) : RowOut :=
  { Open := (df.getD i dummyRow).Open,
    High := (df.getD i dummyRow).High,
    Low := (df.getD i dummyRow).Low,
    Close := (df.getD i dummyRow).Close,
    Volume := (df.getD i dummyRow).Volume,
    SMA := rollingMean window (closes df) i,
    RSI := rsiAt (closes df) i,
    BB_Middle := rollingMean 20 (closes df) i,
    BB_Upper := bbUpperAt (closes df) i,
    BB_Lower := bbLowerAt (closes df) i }

/-- `calculate_technical_indicators(df, window)` (`src/i.py` lines 145-165):
`df.copy()` followed by the column assignments; the result is aligned
point-for-point with the input. -/
noncomputable def calculate_technical_indicators (df : List Row) (window : ℕ) : List RowOut :=
  (List.range df.length).map (indicatorRow df window)

example : rollingMean 3 [1, 2, 3, 4] 1 = none := by norm_num [rollingMean]
example : rollingMean 3 [1, 2, 3, 4] 2 = some 2 := by norm_num [rollingMean, windowSlice]
example : gains [5, 7, 6] = [0, 2, 0] := by norm_num [gains, List.range_succ]
example : losses [5, 7, 6] = [0, 0, 1] := by norm_num [losses, List.range_succ]
example : sampleVar 2 [1, 3] 1 = some 2 := by norm_num [sampleVar, windowSlice]

/-- The volume-bar colour of a point (`src/i.py` line 214):
`'red' if row['Open'] - row['Close'] >= 0 else 'green'` — red marks a bar
whose close fell ("down"), green one whose close rose ("up"). -/
inductive BarColor where
  | red
  | green
deriving Repr, DecidableEq

/-- Colour assignment of the volume bar of one row (`src/i.py` line 214). -/
def volumeColor (r : Row) : BarColor :=
  if r.Open - r.Close ≥ 0 then BarColor.red else BarColor.green

/-- One bar of the raw time-series payload, after the numeric conversion
attempt: a field holds `none` when its text does not parse as a number
(in the source, `df.astype(float)` then raises and the surrounding
`except` returns `None`). -/
structure RawBar where
  Open : Option ℚ
  High : Option ℚ
  Low : Option ℚ
  Close : Option ℚ
  Volume : Option ℚ
deriving Repr, DecidableEq

/-- The raw API response as far as `get_stock_data` inspects it: the value
of `data.get("Time Series (...)", {})`, a map from timestamps to bars; a
missing or empty time-series key is the empty list. -/
structure RawResponse where
  timeSeries : List (ℕ × RawBar)
deriving Repr, DecidableEq

/-- Numeric conversion of one bar: succeeds only if every field parses
(`df.astype(float)`, `src/i.py` line 91). -/
def parseBar (b : RawBar) : Option Row :=
  match b.Open, b.High, b.Low, b.Close, b.Volume with
  | some o, some h, some l, some c, some v =>
    some { Open := o, High := h, Low := l, Close := c, Volume := v }
  | _, _, _, _, _ => none

/-- Numeric conversion of the whole payload: any failing bar makes the
whole conversion raise, hence fail (`src/i.py` lines 88-97). -/
def parseBars : List (ℕ × RawBar) → Option (List (ℕ × Row))
  | [] => some []
  | (t, b) :: rest =>
    match parseBar b, parseBars rest with
    | some r, some rs => some ((t, r) :: rs)
    | _, _ => none

/-- Insertion of a timestamped row into a list sorted by timestamp. -/
def insertByTime (p : ℕ × Row) : List (ℕ × Row) → List (ℕ × Row)
  | [] => [p]
  | q :: qs => if p.1 ≤ q.1 then p :: q :: qs else q :: insertByTime p qs

/-- `df.sort_index()` (`src/i.py` line 92): sort the rows by timestamp. -/
def sortByTime (l : List (ℕ × Row)) : List (ℕ × Row) :=
  l.foldr insertByTime []

/-- `get_stock_data` (`src/i.py` lines 67-97), from the decoded response
onward: an empty (or missing) time-series key is reported with `st.error`
and `None` (lines 83-85); a payload whose numbers do not convert raises
inside the `try`, which again reports `st.error` and returns `None`
(lines 95-97); otherwise the frame is built and sorted by timestamp.
`Except.error` stands for the pair "user-visible error message, `None`". -/
def get_stock_data (resp : RawResponse) : Except String (List Row) :=
  if resp.timeSeries.isEmpty then
    Except.error "Error fetching data: no time series in response"
  else
    match parseBars resp.timeSeries with
    | none => Except.error "Error fetching data: malformed payload"
    | some rows => Except.ok ((sortByTime rows).map Prod.snd)

/-- What `main` does with the fetched frame (`src/i.py` lines 288-370). -/
inductive MainOutcome where
  | dashboard (out : List RowOut)
  | crash
  | warnNoData

/-- The dispatch in `main` (`src/i.py` lines 288-370): a `None` result or an
empty frame shows the "No data available" warning (line 370); otherwise the
indicator engine runs with the default window (line 292).  On a one-row
frame the metrics section then evaluates `df.iloc[-2]` (line 307), which
raises `IndexError` — modelled as `crash`. -/
noncomputable def mainOutcome (fetched : Except String (List Row)) : MainOutcome :=
  match fetched with
  | Except.error _ => MainOutcome.warnNoData
  | Except.ok df =>
    if df.isEmpty then MainOutcome.warnNoData
    else if df.length = 1 then MainOutcome.crash
    else MainOutcome.dashboard (calculate_technical_indicators df 20)

/-- Modelled from the spec: the population-standard-deviation variant of the
Bollinger width ("trailing mean and trailing population standard deviation of
`close` over window 20"), dividing the squared deviations by `w` instead of
`w - 1`; stated only to compare the spec's band formula with the code's. -/
def popVar (w : ℕ) (xs : List ℚ) (i : ℕ) : Option ℚ :=
  if i + 1 < w then none
  else
    some (((windowSlice w xs i).map
      fun x => (x - (windowSlice w xs i).sum / w) ^ 2).sum / (w : ℚ))

/-- Modelled from the spec: the upper Bollinger band as the spec words it,
`mean + 2 * (population sigma)`, for comparison with the code's `bbUpperAt`. -/
noncomputable def bbUpperSpecAt (xs : List ℚ) (i : ℕ) : Option ℝ :=
  match rollingMean 20 xs i, popVar 20 xs i with
  | some m, some v => some ((m : ℝ) + Real.sqrt (v : ℝ) * 2)
  | _, _ => none

/-! ### Helper lemmas about windows, sums and frame access -/

theorem windowSlice_length (w i : ℕ) (xs : List ℚ) (h1 : w ≤ i + 1) (h2 : i < xs.length) :
    (windowSlice w xs i).length = w := by
  simp [windowSlice, List.length_drop, List.length_take]
  omega

theorem windowSlice_eq_map (w i : ℕ) (xs : List ℚ) (h1 : w ≤ i + 1) (h2 : i < xs.length) :
    windowSlice w xs i = (List.range w).map fun j => xs.getD (i + 1 - w + j) 0 := by
  apply List.ext_getElem
  · rw [windowSlice_length w i xs h1 h2]; simp
  · intro j hj1 hj2
    rw [windowSlice_length w i xs h1 h2] at hj1
    have hlt : i + 1 - w + j < xs.length := by omega
    simp only [windowSlice, List.getElem_drop, List.getElem_take, List.getElem_map,
      List.getElem_range]
    rw [List.getD_eq_getElem xs 0 hlt]

theorem mem_of_mem_windowSlice (w i : ℕ) (xs : List ℚ) (x : ℚ)
    (hx : x ∈ windowSlice w xs i) : x ∈ xs :=
  List.mem_of_mem_take (List.mem_of_mem_drop hx)

theorem list_range_map_sum (n : ℕ) (f : ℕ → ℚ) :
    ((List.range n).map f).sum = ∑ j ∈ Finset.range n, f j := by
  induction n with
  | zero => simp
  | succ k ih =>
    rw [List.range_succ, List.map_append, List.sum_append, Finset.sum_range_succ, ih]
    simp

theorem sum_const_of_mem (l : List ℚ) (c : ℚ) (h : ∀ x ∈ l, x = c) :
    l.sum = l.length * c := by
  induction l with
  | nil => simp
  | cons a t ih =>
    have ha := h a (by simp)
    have ht := ih fun x (hx : x ∈ t) => h x (by simp [hx])
    simp [ha, ht]
    ring

theorem sum_eq_zero_iff_nonneg (l : List ℚ) (h : ∀ x ∈ l, 0 ≤ x) :
    l.sum = 0 ↔ ∀ x ∈ l, x = 0 := by
  induction l with
  | nil => simp
  | cons a t ih =>
    have ha := h a (by simp)
    have ht : ∀ x ∈ t, (0:ℚ) ≤ x := fun x hx => h x (by simp [hx])
    have hts : 0 ≤ t.sum := List.sum_nonneg ht
    rw [List.sum_cons]
    constructor
    · intro hz
      have ha0 : a = 0 := by linarith
      have ht0 : t.sum = 0 := by linarith
      intro x hx
      rcases List.mem_cons.mp hx with rfl | hxt
      · exact ha0
      · exact ((ih ht).mp ht0) x hxt
    · intro hz
      have ha0 : a = 0 := hz a (by simp)
      have ht0 : t.sum = 0 := (ih ht).mpr fun x hx => hz x (by simp [hx])
      rw [ha0, ht0]; ring

theorem getD_map_range {α : Type} (n i : ℕ) (f : ℕ → α) (d : α) (h : i < n) :
    ((List.range n).map f).getD i d = f i := by
  rw [List.getD_eq_getElem _ _ (by simpa using h)]
  simp

theorem rollingMean_eq_none_iff (w i : ℕ) (xs : List ℚ) :
    rollingMean w xs i = none ↔ i + 1 < w := by
  by_cases h : i + 1 < w <;> simp [rollingMean, h]

theorem rollingMean_eq_some (w i : ℕ) (xs : List ℚ) (h1 : w ≤ i + 1) (h2 : i < xs.length) :
    rollingMean w xs i = some ((∑ j ∈ Finset.range w, xs.getD (i + 1 - w + j) 0) / w) := by
  rw [rollingMean, if_neg (by omega), windowSlice_eq_map w i xs h1 h2, list_range_map_sum]

theorem gains_length (xs : List ℚ) : (gains xs).length = xs.length := by
  simp [gains]

theorem losses_length (xs : List ℚ) : (losses xs).length = xs.length := by
  simp [losses]

theorem gains_nonneg (xs : List ℚ) : ∀ x ∈ gains xs, 0 ≤ x := by
  intro x hx
  rcases List.mem_map.mp hx with ⟨j, hmem, hj⟩
  subst hj
  by_cases h0 : j = 0
  · simp [h0]
  · by_cases hd : 0 < xs.getD j 0 - xs.getD (j - 1) 0
    · simp only [h0, if_false, hd, if_true]
      linarith
    · simp only [h0, if_false, hd, if_false]
      exact le_refl 0

theorem losses_nonneg (xs : List ℚ) : ∀ x ∈ losses xs, 0 ≤ x := by
  intro x hx
  rcases List.mem_map.mp hx with ⟨j, hmem, hj⟩
  subst hj
  by_cases h0 : j = 0
  · simp [h0]
  · by_cases hd : xs.getD j 0 - xs.getD (j - 1) 0 < 0
    · simp only [h0, if_false, hd, if_true]
      linarith
    · simp only [h0, if_false, hd, if_false]
      exact le_refl 0

theorem closes_length (df : List Row) : (closes df).length = df.length := by
  simp [closes]

theorem calc_length (df : List Row) (W : ℕ) :
    (calculate_technical_indicators df W).length = df.length := by
  simp [calculate_technical_indicators]

theorem calc_getD (df : List Row) (W i : ℕ) (h : i < df.length) :
    (calculate_technical_indicators df W).getD i dummyOut = indicatorRow df W i := by
  rw [calculate_technical_indicators, getD_map_range df.length i _ dummyOut h]

theorem parseBars_eq_none (l : List (ℕ × RawBar)) (p : ℕ × RawBar)
    (hp : p ∈ l) (hbad : parseBar p.2 = none) : parseBars l = none := by
  induction l with
  | nil => cases hp
  | cons q t ih =>
    obtain ⟨t1, b⟩ := q
    rcases List.mem_cons.mp hp with heq | hpt
    · subst heq
      dsimp only at hbad
      simp only [parseBars, hbad]
    · simp only [parseBars]
      rw [ih hpt]
      rcases hb : parseBar b with _ | r <;> simp

theorem bbUpperAt_eq_none (xs : List ℚ) (i : ℕ) (h : rollingMean 20 xs i = none) :
    bbUpperAt xs i = none := by
  simp [bbUpperAt, h]

theorem bbLowerAt_eq_none (xs : List ℚ) (i : ℕ) (h : rollingMean 20 xs i = none) :
    bbLowerAt xs i = none := by
  simp [bbLowerAt, h]

theorem indicatorRow_SMA (df : List Row) (W i : ℕ) :
    (indicatorRow df W i).SMA = rollingMean W (closes df) i := rfl

theorem indicatorRow_RSI (df : List Row) (W i : ℕ) :
    (indicatorRow df W i).RSI = rsiAt (closes df) i := rfl

theorem indicatorRow_BB_Middle (df : List Row) (W i : ℕ) :
    (indicatorRow df W i).BB_Middle = rollingMean 20 (closes df) i := rfl

theorem indicatorRow_BB_Upper (df : List Row) (W i : ℕ) :
    (indicatorRow df W i).BB_Upper = bbUpperAt (closes df) i := rfl

theorem indicatorRow_BB_Lower (df : List Row) (W i : ℕ) :
    (indicatorRow df W i).BB_Lower = bbLowerAt (closes df) i := rfl

/-! ### Concrete test series -/

/-- Twenty-five rows whose closes are 100, 101, ..., 124 (the spec's synthetic series). -/
def df25 : List Row :=
  [mkRow 100, mkRow 101, mkRow 102, mkRow 103, mkRow 104, mkRow 105, mkRow 106, mkRow 107,
   mkRow 108, mkRow 109, mkRow 110, mkRow 111, mkRow 112, mkRow 113, mkRow 114, mkRow 115,
   mkRow 116, mkRow 117, mkRow 118, mkRow 119, mkRow 120, mkRow 121, mkRow 122, mkRow 123,
   mkRow 124]

/-- Fifteen rows with strictly increasing closes 100, ..., 114. -/
def dfInc15 : List Row :=
  [mkRow 100, mkRow 101, mkRow 102, mkRow 103, mkRow 104, mkRow 105, mkRow 106, mkRow 107,
   mkRow 108, mkRow 109, mkRow 110, mkRow 111, mkRow 112, mkRow 113, mkRow 114]

/-- Fifteen rows with the constant close 100. -/
def dfConst15 : List Row :=
  [mkRow 100, mkRow 100, mkRow 100, mkRow 100, mkRow 100, mkRow 100, mkRow 100, mkRow 100,
   mkRow 100, mkRow 100, mkRow 100, mkRow 100, mkRow 100, mkRow 100, mkRow 100]

/-- Twenty-one rows with the constant close 7. -/
def dfConst21 : List Row :=
  [mkRow 7, mkRow 7, mkRow 7, mkRow 7, mkRow 7, mkRow 7, mkRow 7, mkRow 7, mkRow 7, mkRow 7,
   mkRow 7, mkRow 7, mkRow 7, mkRow 7, mkRow 7, mkRow 7, mkRow 7, mkRow 7, mkRow 7, mkRow 7,
   mkRow 7]

/-- Twenty rows whose closes are ten 0s followed by ten 2s (window mean 1,
population variance 1, sample variance 20/19). -/
def dfMix20 : List Row :=
  [mkRow 0, mkRow 0, mkRow 0, mkRow 0, mkRow 0, mkRow 0, mkRow 0, mkRow 0, mkRow 0, mkRow 0,
   mkRow 2, mkRow 2, mkRow 2, mkRow 2, mkRow 2, mkRow 2, mkRow 2, mkRow 2, mkRow 2, mkRow 2]

/-- A five-row frame, shorter than the Bollinger window. -/
def dfFive : List Row :=
  [mkRow 100, mkRow 101, mkRow 102, mkRow 101, mkRow 103]

/-- A two-row frame used as a small witness input. -/
def dfEx : List Row :=
  [{ Open := 1, High := 3, Low := 0, Close := 2, Volume := 10 },
   { Open := 2, High := 4, Low := 1, Close := 3, Volume := 20 }]

/-! ### Claims -/

/-- Claim C8: the volume bar's colour class is a function of the sign of
`open - close` alone: the bar is red ("down") exactly when `open ≥ close`
and green ("up") exactly when `open < close`; in particular a point with
open 105 and close 100 is red, and one with open 100 and close 105 is
green. -/
theorem volume_color_by_sign :
    (∀ r : Row, (volumeColor r = BarColor.red ↔ r.Close ≤ r.Open) ∧
      (volumeColor r = BarColor.green ↔ r.Open < r.Close)) ∧
    volumeColor { Open := 105, High := 105, Low := 100, Close := 100, Volume := 0 } =
      BarColor.red ∧
    volumeColor { Open := 100, High := 105, Low := 100, Close := 105, Volume := 0 } =
      BarColor.green := by
  refine ⟨fun r => ?_, by norm_num [volumeColor], by norm_num [volumeColor]⟩
  by_cases h : r.Open - r.Close ≥ 0
  · constructor
    · simp only [volumeColor, if_pos h]
      constructor
      · intro _; linarith
      · intro _; trivial
    · simp only [volumeColor, if_pos h]
      constructor
      · intro hre; cases hre
      · intro hlt; linarith
  · constructor
    · simp only [volumeColor, if_neg h]
      constructor
      · intro hre; cases hre
      · intro hle; exact absurd (by linarith : r.Open - r.Close ≥ 0) h
    · simp only [volumeColor, if_neg h]
      constructor
      · intro _; linarith
      · intro _; trivial

/-- Claim C5: for every input series and every index `i ≥ W - 1` (with
`i` inside the frame), the SMA value at `i` is the arithmetic mean of the
`W` close prices at positions `i+1-W, ..., i`. -/
theorem sma_is_trailing_mean (df : List Row) (W i : ℕ) (hW : 1 ≤ W)
    (h1 : W ≤ i + 1) (h2 : i < df.length) :
    ((calculate_technical_indicators df W).getD i dummyOut).SMA =
      some ((∑ j ∈ Finset.range W, (closes df).getD (i + 1 - W + j) 0) / W) := by
  rw [calc_getD df W i h2, indicatorRow_SMA]
  exact rollingMean_eq_some W i (closes df) h1 (by rw [closes_length]; exact h2)

/-- Witness for C5: on the 25-point series with closes 100, ..., 124 the
SMA(20) at index 19 is 109.5 = 219/2. -/
theorem sma_is_trailing_mean_witness :
    ((calculate_technical_indicators df25 20).getD 19 dummyOut).SMA = some (219 / 2) := by
  rw [sma_is_trailing_mean df25 20 19 (by norm_num) (by norm_num) (by norm_num [df25])]
  norm_num [df25, closes, mkRow, Finset.sum_range_succ]

/-- Claim C9: the indicator computation is pure: its output has the same
length as the input, the original Open/High/Low/Close/Volume columns appear
unchanged in the output, and equal inputs give equal outputs (the input
list itself is immutable in this embedding, as the source's `df.copy()`
guarantees for the data frame). -/
theorem indicators_preserve_frame (df : List Row) (W : ℕ) :
    (calculate_technical_indicators df W).length = df.length ∧
    (∀ i, i < df.length →
      ((calculate_technical_indicators df W).getD i dummyOut).Open = (df.getD i dummyRow).Open ∧
      ((calculate_technical_indicators df W).getD i dummyOut).High = (df.getD i dummyRow).High ∧
      ((calculate_technical_indicators df W).getD i dummyOut).Low = (df.getD i dummyRow).Low ∧
      ((calculate_technical_indicators df W).getD i dummyOut).Close = (df.getD i dummyRow).Close ∧
      ((calculate_technical_indicators df W).getD i dummyOut).Volume =
        (df.getD i dummyRow).Volume) ∧
    (∀ df2 : List Row, df = df2 →
      calculate_technical_indicators df W = calculate_technical_indicators df2 W) := by
  refine ⟨calc_length df W, fun i hi => ?_, fun df2 h => by rw [h]⟩
  rw [calc_getD df W i hi]
  exact ⟨rfl, rfl, rfl, rfl, rfl⟩

/-- Witness for C9 at a concrete two-row frame and index 0. -/
theorem indicators_preserve_frame_witness :
    (calculate_technical_indicators dfEx 20).length = dfEx.length ∧
    ((calculate_technical_indicators dfEx 20).getD 0 dummyOut).Close =
      (dfEx.getD 0 dummyRow).Close := by
  have h := indicators_preserve_frame dfEx 20
  exact ⟨h.1, (h.2.1 0 (by norm_num [dfEx])).2.2.2.1⟩

/-- Claim C2 (amended): at an index where the trailing 14-point average loss
is exactly zero, the computed RSI is 100 when the average gain is nonzero
(the source's `gain / 0 = +inf` collapses `100 - 100/(1+rs)` to 100), but it
is undefined — `NaN`, no value — when the average gain is zero as well
(`0 / 0 = NaN`).  The claim as stated, RSI = 100 in all such cases, is
refuted by `rsi_zero_loss_counterexample`. -/
theorem rsi_zero_loss_cases (df : List Row) (W i : ℕ) (g : ℚ) (hi : i < df.length)
    (hg : rollingMean 14 (gains (closes df)) i = some g)
    (hl : rollingMean 14 (losses (closes df)) i = some 0) :
    (g ≠ 0 → ((calculate_technical_indicators df W).getD i dummyOut).RSI = some 100) ∧
    (g = 0 → ((calculate_technical_indicators df W).getD i dummyOut).RSI = none) := by
  rw [calc_getD df W i hi, indicatorRow_RSI]
  constructor <;> intro h <;> simp [rsiAt, hg, hl, h]

/-- Witness for C2 (amended) on the increasing 15-point series: at index 14
the average loss is zero, the average gain is 1, and the RSI is 100. -/
theorem rsi_zero_loss_cases_witness :
    ((calculate_technical_indicators dfInc15 20).getD 14 dummyOut).RSI = some 100 :=
  (rsi_zero_loss_cases dfInc15 20 14 1 (by norm_num [dfInc15])
    (by norm_num [gains, closes, dfInc15, mkRow, rollingMean, windowSlice, List.range_succ])
    (by norm_num [losses, closes, dfInc15, mkRow, rollingMean, windowSlice,
      List.range_succ])).1 (by norm_num)

/-- Counterexample to C2 as stated: on a constant 15-point series the trailing
14-point average loss at index 14 is exactly zero, yet the computed RSI there
is undefined (the `0/0 = NaN` case), not 100. -/
theorem rsi_zero_loss_counterexample :
    rollingMean 14 (losses (closes dfConst15)) 14 = some 0 ∧
    ((calculate_technical_indicators dfConst15 20).getD 14 dummyOut).RSI = none := by
  constructor
  · norm_num [losses, closes, dfConst15, mkRow, rollingMean, windowSlice, List.range_succ]
  · rw [calc_getD dfConst15 20 14 (by norm_num [dfConst15]), indicatorRow_RSI]
    norm_num [rsiAt, rollingMean, windowSlice, gains, losses, closes, dfConst15, mkRow,
      List.range_succ]

/-- Counterexample to C4 as stated: the claim places the first defined RSI at
index 14, but on the increasing 15-point series the computed RSI is already
defined (and equal to 100) at index 13 — `diff`'s leading `NaN` is turned
into a 0 by `where(delta > 0, 0)`, so the 14-point window is already full
there. -/
theorem rsi_defined_at_13_counterexample :
    ((calculate_technical_indicators dfInc15 20).getD 13 dummyOut).RSI = some 100 := by
  rw [calc_getD dfInc15 20 13 (by norm_num [dfInc15]), indicatorRow_RSI]
  norm_num [rsiAt, rollingMean, windowSlice, gains, losses, closes, dfInc15, mkRow,
    List.range_succ]

theorem bbUpperAt_eq_none_iff (xs : List ℚ) (i : ℕ) :
    bbUpperAt xs i = none ↔ i + 1 < 20 := by
  by_cases hc : i + 1 < 20
  · simp only [hc, iff_true]
    exact bbUpperAt_eq_none _ _ (by simp only [rollingMean, if_pos hc])
  · simp only [hc, iff_false]
    obtain ⟨m, hm⟩ : ∃ m, rollingMean 20 xs i = some m := by
      simp only [rollingMean, if_neg hc]
      exact ⟨_, rfl⟩
    obtain ⟨s, hs⟩ : ∃ s, bbStdAt xs i = some s := by
      simp only [bbStdAt, sampleVar, if_neg hc, Option.map_some']
      exact ⟨_, rfl⟩
    simp [bbUpperAt, hm, hs]

theorem bbLowerAt_eq_none_iff (xs : List ℚ) (i : ℕ) :
    bbLowerAt xs i = none ↔ i + 1 < 20 := by
  by_cases hc : i + 1 < 20
  · simp only [hc, iff_true]
    exact bbLowerAt_eq_none _ _ (by simp only [rollingMean, if_pos hc])
  · simp only [hc, iff_false]
    obtain ⟨m, hm⟩ : ∃ m, rollingMean 20 xs i = some m := by
      simp only [rollingMean, if_neg hc]
      exact ⟨_, rfl⟩
    obtain ⟨s, hs⟩ : ∃ s, bbStdAt xs i = some s := by
      simp only [bbStdAt, sampleVar, if_neg hc, Option.map_some']
      exact ⟨_, rfl⟩
    simp [bbLowerAt, hm, hs]

theorem rsiAt_eq_none_iff (xs : List ℚ) (i : ℕ) :
    rsiAt xs i = none ↔
      (i < 13 ∨ ((∀ x ∈ windowSlice 14 (gains xs) i, x = 0) ∧
        (∀ x ∈ windowSlice 14 (losses xs) i, x = 0))) := by
  by_cases hc : i + 1 < 14
  · have h13 : i < 13 := by omega
    have hG : rollingMean 14 (gains xs) i = none := by simp only [rollingMean, if_pos hc]
    simp [rsiAt, hG, h13]
  · have h13 : ¬ i < 13 := by omega
    have hG : rollingMean 14 (gains xs) i
        = some ((windowSlice 14 (gains xs) i).sum / ((14 : ℕ) : ℚ)) := by
      simp only [rollingMean, if_neg hc]
    have hL : rollingMean 14 (losses xs) i
        = some ((windowSlice 14 (losses xs) i).sum / ((14 : ℕ) : ℚ)) := by
      simp only [rollingMean, if_neg hc]
    have hgz : (windowSlice 14 (gains xs) i).sum / ((14 : ℕ) : ℚ) = 0 ↔
        (windowSlice 14 (gains xs) i).sum = 0 := by
      constructor
      · intro h
        have := (div_eq_zero_iff).mp h
        rcases this with h0 | h0
        · exact h0
        · norm_num at h0
      · intro h; rw [h]; norm_num
    have hlz : (windowSlice 14 (losses xs) i).sum / ((14 : ℕ) : ℚ) = 0 ↔
        (windowSlice 14 (losses xs) i).sum = 0 := by
      constructor
      · intro h
        have := (div_eq_zero_iff).mp h
        rcases this with h0 | h0
        · exact h0
        · norm_num at h0
      · intro h; rw [h]; norm_num
    have hgsum : (windowSlice 14 (gains xs) i).sum = 0 ↔
        ∀ x ∈ windowSlice 14 (gains xs) i, x = 0 :=
      sum_eq_zero_iff_nonneg _ fun x hx =>
        gains_nonneg xs x (mem_of_mem_windowSlice 14 i _ x hx)
    have hlsum : (windowSlice 14 (losses xs) i).sum = 0 ↔
        ∀ x ∈ windowSlice 14 (losses xs) i, x = 0 :=
      sum_eq_zero_iff_nonneg _ fun x hx =>
        losses_nonneg xs x (mem_of_mem_windowSlice 14 i _ x hx)
    simp only [rsiAt, hG, hL, h13, false_or]
    constructor
    · intro h
      by_cases hl0 : (windowSlice 14 (losses xs) i).sum / ((14 : ℕ) : ℚ) = 0
      · rw [if_pos hl0] at h
        by_cases hg0 : (windowSlice 14 (gains xs) i).sum / ((14 : ℕ) : ℚ) = 0
        · exact ⟨hgsum.mp (hgz.mp hg0), hlsum.mp (hlz.mp hl0)⟩
        · rw [if_neg hg0] at h
          exact Option.noConfusion h
      · rw [if_neg hl0] at h
        exact Option.noConfusion h
    · rintro ⟨hga, hlo⟩
      have hg0 : (windowSlice 14 (gains xs) i).sum / ((14 : ℕ) : ℚ) = 0 :=
        hgz.mpr (hgsum.mpr hga)
      have hl0 : (windowSlice 14 (losses xs) i).sum / ((14 : ℕ) : ℚ) = 0 :=
        hlz.mpr (hlsum.mpr hlo)
      rw [if_pos hl0, if_pos hg0]

/-- Claim C4 (amended): with the default parameters, SMA, BB_Middle,
BB_Upper and BB_Lower are absent exactly at indices 0..18 and present from
index 19 on, as claimed; RSI, however, is absent at indices 0..12 — its
first value sits at index 13, one position earlier than the claimed 14 —
and from index 13 on it is absent exactly when the trailing 14 gains and
losses are all zero (a locally constant close, the `0/0` case). -/
theorem indicator_definedness (df : List Row) (i : ℕ) (hi : i < df.length) :
    (((calculate_technical_indicators df 20).getD i dummyOut).SMA = none ↔ i < 19) ∧
    (((calculate_technical_indicators df 20).getD i dummyOut).BB_Middle = none ↔ i < 19) ∧
    (((calculate_technical_indicators df 20).getD i dummyOut).BB_Upper = none ↔ i < 19) ∧
    (((calculate_technical_indicators df 20).getD i dummyOut).BB_Lower = none ↔ i < 19) ∧
    (((calculate_technical_indicators df 20).getD i dummyOut).RSI = none ↔
      (i < 13 ∨ ((∀ x ∈ windowSlice 14 (gains (closes df)) i, x = 0) ∧
        (∀ x ∈ windowSlice 14 (losses (closes df)) i, x = 0)))) := by
  rw [calc_getD df 20 i hi, indicatorRow_SMA, indicatorRow_BB_Middle, indicatorRow_BB_Upper,
    indicatorRow_BB_Lower, indicatorRow_RSI]
  refine ⟨?_, ?_, ?_, ?_, rsiAt_eq_none_iff (closes df) i⟩
  · rw [rollingMean_eq_none_iff]; omega
  · rw [rollingMean_eq_none_iff]; omega
  · rw [bbUpperAt_eq_none_iff]; omega
  · rw [bbLowerAt_eq_none_iff]; omega

/-- Witness for C4 (amended) on the constant 21-point series at index 19:
all four band/average columns are present there, and the RSI is absent
(constant closes, the `0/0` case), exactly as the amended claim's
characterisation requires. -/
theorem indicator_definedness_witness :
    ¬ (((calculate_technical_indicators dfConst21 20).getD 19 dummyOut).SMA = none) ∧
    ¬ (((calculate_technical_indicators dfConst21 20).getD 19 dummyOut).BB_Upper = none) ∧
    ((calculate_technical_indicators dfConst21 20).getD 19 dummyOut).RSI = none := by
  have h := indicator_definedness dfConst21 19 (by norm_num [dfConst21])
  refine ⟨fun hx => ?_, fun hx => ?_, ?_⟩
  · have := h.1.mp hx; omega
  · have := h.2.2.1.mp hx; omega
  · refine (h.2.2.2.2).mpr (Or.inr ⟨?_, ?_⟩) <;>
      intro x hx <;>
      revert hx <;>
      norm_num [windowSlice, gains, losses, closes, dfConst21, mkRow, List.range_succ]

/-- Counterexample to C3 as stated: the program never reports an
"insufficient data" signal for a short series and can in fact crash.  A
one-row frame reaches `df.iloc[-2]` in `main`, raising `IndexError`; and a
five-row frame is not rejected at all — `main` proceeds to the dashboard,
merely carrying all-absent SMA/Bollinger columns. -/
theorem short_series_crash_counterexample :
    mainOutcome (Except.ok [mkRow 100]) = MainOutcome.crash ∧
    mainOutcome (Except.ok [mkRow 100, mkRow 101, mkRow 102, mkRow 103, mkRow 104]) ≠
      MainOutcome.warnNoData := by
  constructor
  · rfl
  · intro h
    rw [show mainOutcome (Except.ok [mkRow 100, mkRow 101, mkRow 102, mkRow 103, mkRow 104])
        = MainOutcome.dashboard (calculate_technical_indicators
            [mkRow 100, mkRow 101, mkRow 102, mkRow 103, mkRow 104] 20) from rfl] at h
    exact MainOutcome.noConfusion h

/-- Claim C3 (amended): a series shorter than the longest window (20) is not
rejected and produces no "insufficient data" signal: `main` still builds the
dashboard over it, the indicator engine returns an aligned frame whose
SMA and Bollinger columns are entirely absent, and nothing crashes in the
engine itself (though `main` does crash on a one-row frame, see the
counterexample). -/
theorem short_series_processed (df : List Row) (h2 : 2 ≤ df.length) (h20 : df.length < 20) :
    mainOutcome (Except.ok df) =
      MainOutcome.dashboard (calculate_technical_indicators df 20) ∧
    ∀ r ∈ calculate_technical_indicators df 20,
      r.SMA = none ∧ r.BB_Middle = none ∧ r.BB_Upper = none ∧ r.BB_Lower = none := by
  constructor
  · have hne : df.isEmpty = false := by
      cases df with
      | nil => simp at h2
      | cons a t => rfl
    have h1 : ¬ df.length = 1 := by omega
    simp only [mainOutcome, hne, Bool.false_eq_true, if_false, h1, if_neg h1]
  · intro r hr
    rw [calculate_technical_indicators] at hr
    rcases List.mem_map.mp hr with ⟨j, hjmem, hj⟩
    have hj20 : j + 1 < 20 := by
      have := List.mem_range.mp hjmem
      omega
    have hnone : rollingMean 20 (closes df) j = none :=
      (rollingMean_eq_none_iff 20 j (closes df)).mpr hj20
    subst hj
    refine ⟨?_, ?_, ?_, ?_⟩
    · rw [indicatorRow_SMA]
      exact (rollingMean_eq_none_iff 20 j (closes df)).mpr hj20
    · rw [indicatorRow_BB_Middle]
      exact hnone
    · rw [indicatorRow_BB_Upper]
      exact bbUpperAt_eq_none _ _ hnone
    · rw [indicatorRow_BB_Lower]
      exact bbLowerAt_eq_none _ _ hnone

/-- Witness for C3 (amended) on a concrete five-row frame. -/
theorem short_series_processed_witness :
    mainOutcome (Except.ok dfFive) =
      MainOutcome.dashboard (calculate_technical_indicators dfFive 20) ∧
    ∀ r ∈ calculate_technical_indicators dfFive 20,
      r.SMA = none ∧ r.BB_Middle = none ∧ r.BB_Upper = none ∧ r.BB_Lower = none :=
  short_series_processed dfFive (by norm_num [dfFive]) (by norm_num [dfFive])

/-- The empty raw response: a payload with no time-series entries. -/
def respEmpty : RawResponse := { timeSeries := [] }

/-- Claim C6: an empty or malformed time-series payload is rejected by
`get_stock_data` with a user-visible error message and no frame, and `main`
then shows the "no data" warning — the indicator engine is never invoked on
such a response. -/
theorem empty_or_malformed_rejected (resp : RawResponse)
    (h : resp.timeSeries = [] ∨ ∃ p ∈ resp.timeSeries, parseBar p.2 = none) :
    (∃ msg, get_stock_data resp = Except.error msg) ∧
    mainOutcome (get_stock_data resp) = MainOutcome.warnNoData := by
  have herr : ∃ msg, get_stock_data resp = Except.error msg := by
    rcases h with hempty | ⟨p, hp, hbad⟩
    · refine ⟨"Error fetching data: no time series in response", ?_⟩
      simp only [get_stock_data, if_pos (show resp.timeSeries.isEmpty = true by
        rw [hempty]; rfl)]
    · by_cases hempty : resp.timeSeries.isEmpty
      · refine ⟨"Error fetching data: no time series in response", ?_⟩
        simp only [get_stock_data, if_pos hempty]
      · refine ⟨"Error fetching data: malformed payload", ?_⟩
        simp only [get_stock_data, if_neg hempty,
          parseBars_eq_none resp.timeSeries p hp hbad]
  obtain ⟨msg, hmsg⟩ := herr
  exact ⟨⟨msg, hmsg⟩, by rw [hmsg]; rfl⟩

/-- Witness for C6 at the concrete empty response. -/
theorem empty_or_malformed_rejected_witness :
    (∃ msg, get_stock_data respEmpty = Except.error msg) ∧
    mainOutcome (get_stock_data respEmpty) = MainOutcome.warnNoData :=
  empty_or_malformed_rejected respEmpty (Or.inl rfl)

theorem rollingMean_const (w i : ℕ) (xs : List ℚ) (c : ℚ) (hc : ∀ x ∈ xs, x = c)
    (hw : 1 ≤ w) (h1 : w ≤ i + 1) (h2 : i < xs.length) :
    rollingMean w xs i = some c := by
  have hlen := windowSlice_length w i xs h1 h2
  have hmem : ∀ x ∈ windowSlice w xs i, x = c := fun x hx =>
    hc x (mem_of_mem_windowSlice w i xs x hx)
  have hw0 : ((w : ℕ) : ℚ) ≠ 0 := Nat.cast_ne_zero.mpr (by omega)
  simp only [rollingMean, if_neg (show ¬ i + 1 < w by omega)]
  rw [sum_const_of_mem _ c hmem, hlen, mul_div_cancel_left₀ c hw0]

theorem sampleVar_const (xs : List ℚ) (c : ℚ) (i : ℕ) (hc : ∀ x ∈ xs, x = c)
    (h1 : 20 ≤ i + 1) (h2 : i < xs.length) :
    sampleVar 20 xs i = some 0 := by
  have hlen := windowSlice_length 20 i xs h1 h2
  have hmem : ∀ x ∈ windowSlice 20 xs i, x = c := fun x hx =>
    hc x (mem_of_mem_windowSlice 20 i xs x hx)
  have hmean : (windowSlice 20 xs i).sum / ((20 : ℕ) : ℚ) = c := by
    rw [sum_const_of_mem _ c hmem, hlen]
    norm_num
  simp only [sampleVar, if_neg (show ¬ i + 1 < 20 by omega)]
  have hzero : ∀ y ∈ (windowSlice 20 xs i).map
      (fun x => (x - (windowSlice 20 xs i).sum / ((20 : ℕ) : ℚ)) ^ 2), y = 0 := by
    intro y hy
    rcases List.mem_map.mp hy with ⟨x, hx, hxy⟩
    rw [← hxy, hmem x hx, hmean]
    ring
  rw [sum_const_of_mem _ 0 hzero]
  norm_num

/-- Claim C7: on a series whose close price is the constant `c`, the SMA is
`c` wherever it is defined, and the Bollinger upper and lower bands both
coincide with the middle band (the rolling standard deviation is zero), all
three being `c` as well. -/
theorem constant_series_indicators (df : List Row) (c : ℚ) (W i : ℕ)
    (hc : ∀ r ∈ df, r.Close = c) (hW : 1 ≤ W) (hi : i < df.length) :
    (W ≤ i + 1 → ((calculate_technical_indicators df W).getD i dummyOut).SMA = some c) ∧
    (20 ≤ i + 1 →
      ((calculate_technical_indicators df W).getD i dummyOut).BB_Middle = some c ∧
      ((calculate_technical_indicators df W).getD i dummyOut).BB_Upper = some ((c : ℚ) : ℝ) ∧
      ((calculate_technical_indicators df W).getD i dummyOut).BB_Lower = some ((c : ℚ) : ℝ)) := by
  have hcs : ∀ x ∈ closes df, x = c := by
    intro x hx
    rcases List.mem_map.mp hx with ⟨r, hr, hxr⟩
    rw [← hxr]
    exact hc r hr
  have hlen : i < (closes df).length := by rw [closes_length]; exact hi
  rw [calc_getD df W i hi, indicatorRow_SMA, indicatorRow_BB_Middle, indicatorRow_BB_Upper,
    indicatorRow_BB_Lower]
  refine ⟨fun h1 => rollingMean_const W i _ c hcs hW h1 hlen, fun h20 => ?_⟩
  have hm := rollingMean_const 20 i (closes df) c hcs (by omega) h20 hlen
  have hv := sampleVar_const (closes df) c i hcs h20 hlen
  have hs : bbStdAt (closes df) i = some 0 := by
    simp only [bbStdAt, hv, Option.map_some']
    norm_num
  refine ⟨hm, ?_, ?_⟩
  · simp only [bbUpperAt, hm, hs]
    norm_num
  · simp only [bbLowerAt, hm, hs]
    norm_num

/-- Witness for C7 on the constant series with close 7, at index 19 with the
default window. -/
theorem constant_series_indicators_witness :
    ((calculate_technical_indicators dfConst21 20).getD 19 dummyOut).SMA = some 7 ∧
    ((calculate_technical_indicators dfConst21 20).getD 19 dummyOut).BB_Middle = some 7 ∧
    ((calculate_technical_indicators dfConst21 20).getD 19 dummyOut).BB_Upper =
      some ((7 : ℚ) : ℝ) ∧
    ((calculate_technical_indicators dfConst21 20).getD 19 dummyOut).BB_Lower =
      some ((7 : ℚ) : ℝ) := by
  have h := constant_series_indicators dfConst21 7 20 19
    (by
      intro r hr
      simp only [dfConst21, List.mem_cons, List.not_mem_nil, or_false, or_self] at hr
      rw [hr, mkRow]) (by norm_num)
    (by norm_num [dfConst21])
  exact ⟨h.1 (by norm_num), (h.2 (by norm_num)).1, (h.2 (by norm_num)).2.1,
    (h.2 (by norm_num)).2.2⟩

/-- Claim C10: the `window` parameter reaches only the SMA column — the RSI
column always uses the fixed period 14 and the three Bollinger columns the
fixed window 20, whatever window is passed — BB_Middle always equals the
SMA column computed with window 20, and the SMA and BB_Middle columns agree
on all inputs exactly when the window is 20. -/
theorem window_only_affects_sma (W W2 : ℕ) (hW : 1 ≤ W) (hW2 : 1 ≤ W2) :
    (∀ df : List Row, ∀ i, i < df.length →
      ((calculate_technical_indicators df W).getD i dummyOut).RSI =
        ((calculate_technical_indicators df W2).getD i dummyOut).RSI ∧
      ((calculate_technical_indicators df W).getD i dummyOut).BB_Middle =
        ((calculate_technical_indicators df W2).getD i dummyOut).BB_Middle ∧
      ((calculate_technical_indicators df W).getD i dummyOut).BB_Upper =
        ((calculate_technical_indicators df W2).getD i dummyOut).BB_Upper ∧
      ((calculate_technical_indicators df W).getD i dummyOut).BB_Lower =
        ((calculate_technical_indicators df W2).getD i dummyOut).BB_Lower) ∧
    (∀ df : List Row, ∀ i, i < df.length →
      ((calculate_technical_indicators df W).getD i dummyOut).BB_Middle =
        ((calculate_technical_indicators df 20).getD i dummyOut).SMA) ∧
    ((∀ df : List Row, ∀ i, i < df.length →
      ((calculate_technical_indicators df W).getD i dummyOut).SMA =
        ((calculate_technical_indicators df W).getD i dummyOut).BB_Middle) ↔ W = 20) := by
  refine ⟨fun df i hi => ?_, fun df i hi => ?_, ?_⟩
  · rw [calc_getD df W i hi, calc_getD df W2 i hi]
    exact ⟨rfl, rfl, rfl, rfl⟩
  · rw [calc_getD df W i hi, calc_getD df 20 i hi]
    rfl
  · constructor
    · intro hall
      by_contra hne
      have hlen20 : dfMix20.length = 20 := by norm_num [dfMix20]
      rcases Nat.lt_or_ge W 20 with hlt | hge
      · have hi : W - 1 < dfMix20.length := by omega
        have h := hall dfMix20 (W - 1) hi
        rw [calc_getD dfMix20 W (W - 1) hi, indicatorRow_SMA, indicatorRow_BB_Middle] at h
        have hnone : rollingMean 20 (closes dfMix20) (W - 1) = none :=
          (rollingMean_eq_none_iff 20 (W - 1) (closes dfMix20)).mpr (by omega)
        have hsome : ¬ rollingMean W (closes dfMix20) (W - 1) = none := by
          rw [rollingMean_eq_none_iff]
          omega
        rw [hnone] at h
        exact hsome h
      · have hgt : 20 < W := by omega
        have hi : 19 < dfMix20.length := by omega
        have h := hall dfMix20 19 hi
        rw [calc_getD dfMix20 W 19 hi, indicatorRow_SMA, indicatorRow_BB_Middle] at h
        have hnone : rollingMean W (closes dfMix20) 19 = none :=
          (rollingMean_eq_none_iff W 19 (closes dfMix20)).mpr (by omega)
        have hsome : ¬ rollingMean 20 (closes dfMix20) 19 = none := by
          rw [rollingMean_eq_none_iff]
          omega
        rw [hnone] at h
        exact hsome h.symm
    · intro h20
      subst h20
      intro df i hi
      rw [calc_getD df 20 i hi]
      rfl

/-- Witness for C10 with the concrete windows 5 and 7: the RSI column is the
same under both, and with window 5 the SMA and BB_Middle columns do not
agree on all inputs. -/
theorem window_only_affects_sma_witness :
    ((calculate_technical_indicators dfFive 5).getD 0 dummyOut).RSI =
      ((calculate_technical_indicators dfFive 7).getD 0 dummyOut).RSI ∧
    ¬ (∀ df : List Row, ∀ i, i < df.length →
      ((calculate_technical_indicators df 5).getD i dummyOut).SMA =
        ((calculate_technical_indicators df 5).getD i dummyOut).BB_Middle) := by
  have h := window_only_affects_sma 5 7 (by norm_num) (by norm_num)
  refine ⟨(h.1 dfFive 0 (by norm_num [dfFive])).1, fun hall => ?_⟩
  have := h.2.2.mp hall
  norm_num at this

theorem sampleVar_eq_some (xs : List ℚ) (i : ℕ) (h1 : 20 ≤ i + 1) (h2 : i < xs.length) :
    sampleVar 20 xs i = some ((∑ j ∈ Finset.range 20,
      (xs.getD (i + 1 - 20 + j) 0 -
        (∑ k ∈ Finset.range 20, xs.getD (i + 1 - 20 + k) 0) / ((20 : ℕ) : ℚ)) ^ 2) /
      ((20 - 1 : ℕ) : ℚ)) := by
  have hmap := windowSlice_eq_map 20 i xs h1 h2
  simp only [sampleVar, if_neg (show ¬ i + 1 < 20 by omega), hmap, List.map_map,
    list_range_map_sum]
  rfl

/-- Claim C1 (amended): for every series and index `i ≥ 19`, the Bollinger
bands at `i` are `m ± 2 s`, where `m` is the trailing 20-point mean of the
closes and `s` is the trailing SAMPLE standard deviation (pandas' default
`ddof = 1`, squared deviations divided by 19) — not the population standard
deviation the claim states, which divides by 20; see
`bb_upper_pop_std_counterexample`. -/
theorem bb_bands_sample_std (df : List Row) (i : ℕ) (h19 : 19 ≤ i) (hlen : i < df.length) :
    ∃ s : ℝ, 0 ≤ s ∧
      s ^ 2 = (((∑ j ∈ Finset.range 20,
        ((closes df).getD (i + 1 - 20 + j) 0 -
          (∑ k ∈ Finset.range 20, (closes df).getD (i + 1 - 20 + k) 0) / ((20 : ℕ) : ℚ)) ^ 2) /
        ((20 - 1 : ℕ) : ℚ) : ℚ) : ℝ) ∧
      ((calculate_technical_indicators df 20).getD i dummyOut).BB_Upper =
        some ((((∑ k ∈ Finset.range 20, (closes df).getD (i + 1 - 20 + k) 0) /
          ((20 : ℕ) : ℚ) : ℚ) : ℝ) + s * 2) ∧
      ((calculate_technical_indicators df 20).getD i dummyOut).BB_Lower =
        some ((((∑ k ∈ Finset.range 20, (closes df).getD (i + 1 - 20 + k) 0) /
          ((20 : ℕ) : ℚ) : ℚ) : ℝ) - s * 2) := by
  have h2 : i < (closes df).length := by rw [closes_length]; exact hlen
  have h1 : 20 ≤ i + 1 := by omega
  have hm := rollingMean_eq_some 20 i (closes df) h1 h2
  have hv := sampleVar_eq_some (closes df) i h1 h2
  have hs : bbStdAt (closes df) i = some (Real.sqrt (((∑ j ∈ Finset.range 20,
      ((closes df).getD (i + 1 - 20 + j) 0 -
        (∑ k ∈ Finset.range 20, (closes df).getD (i + 1 - 20 + k) 0) / ((20 : ℕ) : ℚ)) ^ 2) /
      ((20 - 1 : ℕ) : ℚ) : ℚ) : ℝ)) := by
    simp only [bbStdAt, hv, Option.map_some']
  have hvpos : (0 : ℚ) ≤ (∑ j ∈ Finset.range 20,
      ((closes df).getD (i + 1 - 20 + j) 0 -
        (∑ k ∈ Finset.range 20, (closes df).getD (i + 1 - 20 + k) 0) / ((20 : ℕ) : ℚ)) ^ 2) /
      ((20 - 1 : ℕ) : ℚ) := by
    apply div_nonneg
    · exact Finset.sum_nonneg fun j _ => sq_nonneg _
    · norm_num
  refine ⟨Real.sqrt (((∑ j ∈ Finset.range 20,
      ((closes df).getD (i + 1 - 20 + j) 0 -
        (∑ k ∈ Finset.range 20, (closes df).getD (i + 1 - 20 + k) 0) / ((20 : ℕ) : ℚ)) ^ 2) /
      ((20 - 1 : ℕ) : ℚ) : ℚ) : ℝ), Real.sqrt_nonneg _, ?_, ?_, ?_⟩
  · exact Real.sq_sqrt (by exact_mod_cast hvpos)
  · rw [calc_getD df 20 i hlen, indicatorRow_BB_Upper]
    simp only [bbUpperAt, hm, hs]
  · rw [calc_getD df 20 i hlen, indicatorRow_BB_Lower]
    simp only [bbLowerAt, hm, hs]

/-- Witness for C1 (amended) on the constant series with close 7 at index 19. -/
theorem bb_bands_sample_std_witness :
    19 ≤ 19 ∧ 19 < dfConst21.length ∧
    (∃ s : ℝ, 0 ≤ s ∧
      s ^ 2 = (((∑ j ∈ Finset.range 20,
        ((closes dfConst21).getD (19 + 1 - 20 + j) 0 -
          (∑ k ∈ Finset.range 20, (closes dfConst21).getD (19 + 1 - 20 + k) 0) /
            ((20 : ℕ) : ℚ)) ^ 2) / ((20 - 1 : ℕ) : ℚ) : ℚ) : ℝ) ∧
      ((calculate_technical_indicators dfConst21 20).getD 19 dummyOut).BB_Upper =
        some ((((∑ k ∈ Finset.range 20, (closes dfConst21).getD (19 + 1 - 20 + k) 0) /
          ((20 : ℕ) : ℚ) : ℚ) : ℝ) + s * 2) ∧
      ((calculate_technical_indicators dfConst21 20).getD 19 dummyOut).BB_Lower =
        some ((((∑ k ∈ Finset.range 20, (closes dfConst21).getD (19 + 1 - 20 + k) 0) /
          ((20 : ℕ) : ℚ) : ℚ) : ℝ) - s * 2)) :=
  ⟨le_refl 19, by norm_num [dfConst21],
    bb_bands_sample_std dfConst21 19 (le_refl 19) (by norm_num [dfConst21])⟩

/-- Counterexample to C1 as stated: on the 20-point series of ten 0s and ten
2s the population standard deviation of the full window is exactly 1 while
pandas' sample standard deviation is √(20/19), so the frame's BB_Upper at
index 19 differs from the spec's `mean + 2·(population σ)` value. -/
theorem bb_upper_pop_std_counterexample :
    ((calculate_technical_indicators dfMix20 20).getD 19 dummyOut).BB_Upper ≠
      bbUpperSpecAt (closes dfMix20) 19 := by
  have hm : rollingMean 20 (closes dfMix20) 19 = some 1 := by
    norm_num [rollingMean, windowSlice, closes, dfMix20, mkRow]
  have hv : sampleVar 20 (closes dfMix20) 19 = some (20 / 19) := by
    norm_num [sampleVar, windowSlice, closes, dfMix20, mkRow]
  have hp : popVar 20 (closes dfMix20) 19 = some 1 := by
    norm_num [popVar, windowSlice, closes, dfMix20, mkRow]
  have hs : bbStdAt (closes dfMix20) 19 = some (Real.sqrt ((20 / 19 : ℚ) : ℝ)) := by
    simp only [bbStdAt, hv, Option.map_some']
  rw [calc_getD dfMix20 20 19 (by norm_num [dfMix20]), indicatorRow_BB_Upper]
  simp only [bbUpperAt, bbUpperSpecAt, hm, hs, hp]
  intro h
  have h2 := Option.some.inj h
  have hone : ((1 : ℚ) : ℝ) = 1 := by norm_num
  rw [hone, Real.sqrt_one] at h2
  have hs1 : Real.sqrt ((20 / 19 : ℚ) : ℝ) = 1 := by linarith
  have hv2 : Real.sqrt ((20 / 19 : ℚ) : ℝ) ^ 2 = ((20 / 19 : ℚ) : ℝ) :=
    Real.sq_sqrt (by positivity)
  rw [hs1] at hv2
  norm_num at hv2
